import Mathlib

/-!
Verification of the honest-tax federal income-tax core: the exact-cents
currency type `Usd` and its IRS rounding (src/crates/gideon-tax-core/src/types/usd.rs),
the filer/box model (types/filer.rs), the year-rules interface and its
standard-deduction algorithm (rules/mod.rs, rules/y2025.rs), and the spine
pipeline producing a ledger (spine.rs).

Modelling conventions:
- `Usd` stores an `Int` count of cents, mirroring the Rust `i64` wrapper; the
  source documents that overflow is unchecked because realistic amounts stay
  far below the machine range, so unbounded integers are a faithful model
  (every theorem quantified over `Int` in particular covers every `i64`).
- The external collaborator crate `us_tax_brackets` is out of repository
  scope: its `TaxYear` and `FilingStatus` tagged types are modelled with the
  values the repository references, its `compute_tax` function and `TaxError`
  type are abstract parameters of the spine.
- `BTreeMap Key Usd` is modelled as an association list kept sorted by the
  derived order of `Key` (declaration order), with BTreeMap insert/lookup
  semantics.
-/

namespace HonestTax

/-- Tax-year identity from the external `us_tax_brackets` collaborator,
modelled with the years the repository references. -/
inductive TaxYear where
  | Y2024
  | Y2025
deriving DecidableEq, Repr

/-- The five mutually exclusive filing statuses
(`us_tax_brackets::FilingStatus`, mirrored in honest-tax-core). -/
inductive FilingStatus where
  | Single
  | MarriedFilingJointly
  | MarriedFilingSeparately
  | HeadOfHousehold
  | QualifyingSurvivingSpouse
deriving DecidableEq, Repr

/-- US dollar amount stored as whole cents for exact arithmetic
(`Usd` in types/usd.rs, a wrapper around `i64` cents). -/
structure Usd where
  cents : Int
deriving DecidableEq, Repr

namespace Usd

/-- Source `Usd::ZERO`. -/
def ZERO : Usd := ⟨0⟩

/-- Source `Usd::from_dollars`. -/
def from_dollars (dollars : Int) : Usd := ⟨dollars * 100⟩

/-- Source `Usd::from_cents`. -/
def from_cents (c : Int) : Usd := ⟨c⟩

instance : Add Usd := ⟨fun a b => ⟨a.cents + b.cents⟩⟩
instance : Sub Usd := ⟨fun a b => ⟨a.cents - b.cents⟩⟩
instance : Neg Usd := ⟨fun a => ⟨-a.cents⟩⟩
instance : HMul Usd Int Usd := ⟨fun a n => ⟨a.cents * n⟩⟩

/-- Order on `Usd` is the derived order on the cent count. -/
instance : LE Usd := ⟨fun a b => a.cents ≤ b.cents⟩
instance : LT Usd := ⟨fun a b => a.cents < b.cents⟩
instance (a b : Usd) : Decidable (a ≤ b) := inferInstanceAs (Decidable (a.cents ≤ b.cents))
instance (a b : Usd) : Decidable (a < b) := inferInstanceAs (Decidable (a.cents < b.cents))

/-- Rust `Ord::max` on the derived cent order. -/
def max (a b : Usd) : Usd := ⟨Max.max a.cents b.cents⟩

/-- Rust `Ord::min` on the derived cent order. -/
def min (a b : Usd) : Usd := ⟨Min.min a.cents b.cents⟩

/-- Source `Usd::irs_round` (types/usd.rs lines 101-114): take `unsigned_abs`, round
that to the nearest 100 cents with a remainder of 50 or more rounding up,
and reapply the original sign. -/
def irs_round (u : Usd) : Usd :=
  let abs : Nat := u.cents.natAbs
  let rem : Nat := abs % 100
  let rounded : Nat := if rem ≥ 50 then abs + (100 - rem) else abs - rem
  if u.cents < 0 then ⟨-(rounded : Int)⟩ else ⟨(rounded : Int)⟩

end Usd

/-- A filer (taxpayer or spouse) for the additional standard deduction
(types/filer.rs). -/
structure Filer where
  is_65_or_older : Bool
  is_blind : Bool
deriving DecidableEq, Repr

/-- Source `Filer::default()`: both flags false. -/
def Filer.default : Filer := ⟨false, false⟩

/-- Source `Filer::checked_boxes` (types/filer.rs lines 12-14): the count of true
flags, as the Rust `i64` sum of bool casts. -/
def Filer.checked_boxes (f : Filer) : Int :=
  (if f.is_65_or_older then 1 else 0) + (if f.is_blind then 1 else 0)

/-- Input to `TaxYearRules::standard_deduction` (rules/mod.rs lines 100-110). -/
structure DeductionParams where
  filing_status : FilingStatus
  taxpayer : Filer
  spouse : Option Filer
  is_dependent : Bool
  is_dual_status_alien : Bool
  spouse_itemizes : Bool
  earned_income : Usd

/-- The year-rules capability (rules/mod.rs trait `TaxYearRules`): the year
identity plus the seven published dollar constants. The two derived
algorithms are provided methods shared verbatim by every year
implementation, modelled below as functions on this record. -/
structure TaxYearRules where
  year : TaxYear
  single_mfs_typical_standard_deduction : Usd
  mfj_qss_typical_standard_deduction : Usd
  hoh_typical_standard_deduction : Usd
  additional_deduction_unmarried : Usd
  additional_deduction_married : Usd
  dependent_earned_income_addition : Usd
  dependent_minimum_deduction : Usd

/-- Source `TaxYearRules::typical_standard_deduction` (rules/mod.rs lines 38-47):
dispatch the status to one of the three base constants. -/
def TaxYearRules.typical_standard_deduction (r : TaxYearRules)
    (status : FilingStatus) : Usd :=
  match status with
  | .Single | .MarriedFilingSeparately => r.single_mfs_typical_standard_deduction
  | .MarriedFilingJointly | .QualifyingSurvivingSpouse =>
      r.mfj_qss_typical_standard_deduction
  | .HeadOfHousehold => r.hoh_typical_standard_deduction

/-- Source `TaxYearRules::standard_deduction` (rules/mod.rs lines 54-92): zero
overrides first, then base, per-box additional, and the dependent clamp. -/
def TaxYearRules.standard_deduction (r : TaxYearRules)
    (params : DeductionParams) : Usd :=
  if params.is_dual_status_alien then Usd.ZERO
  else if params.filing_status = .MarriedFilingSeparately ∧ params.spouse_itemizes then
    Usd.ZERO
  else
    let base := r.typical_standard_deduction params.filing_status
    let per_box :=
      match params.filing_status with
      | .Single | .HeadOfHousehold => r.additional_deduction_unmarried
      | _ => r.additional_deduction_married
    let boxes :=
      match params.filing_status with
      | .Single | .HeadOfHousehold => params.taxpayer.checked_boxes
      | .MarriedFilingJointly | .MarriedFilingSeparately
      | .QualifyingSurvivingSpouse =>
          params.taxpayer.checked_boxes +
            (match params.spouse with
             | some s => s.checked_boxes
             | none => 0)
    let additional := per_box * boxes
    if params.is_dependent then
      let earned_plus := params.earned_income + r.dependent_earned_income_addition
      let floor := r.dependent_minimum_deduction
      let capped_base := (earned_plus.max floor).min base
      capped_base + additional
    else
      base + additional

/-- Source `Rules2025` (rules/y2025.rs): IRS-published parameters for tax year 2025. -/
def Rules2025 : TaxYearRules where
  year := .Y2025
  single_mfs_typical_standard_deduction := Usd.from_dollars 15750
  mfj_qss_typical_standard_deduction := Usd.from_dollars 31500
  hoh_typical_standard_deduction := Usd.from_dollars 23625
  additional_deduction_unmarried := Usd.from_dollars 2000
  additional_deduction_married := Usd.from_dollars 1600
  dependent_earned_income_addition := Usd.from_dollars 450
  dependent_minimum_deduction := Usd.from_dollars 1350

/-- Ledger keys (spine.rs lines 13-32), declared in pipeline order; the
derived Rust `Ord` compares declaration order. -/
inductive Key where
  | TotalIncome
  | Adjustments
  | AGI
  | Deductions
  | TaxableIncome
  | RegularTax
  | AdditionalTax
  | TotalTaxPreCredits
  | NonRefundableCredits
  | TaxAfterNonRefundableCredits
  | RefundableCredits
  | TotalTax
  | Withholding
  | EstimatedPayments
  | TotalPayments
  | Refund
  | AmountOwed
deriving DecidableEq, Repr

/-- Declaration index of a ledger key, the order the derived `Ord` uses. -/
def Key.idx : Key → Nat
  | .TotalIncome => 0
  | .Adjustments => 1
  | .AGI => 2
  | .Deductions => 3
  | .TaxableIncome => 4
  | .RegularTax => 5
  | .AdditionalTax => 6
  | .TotalTaxPreCredits => 7
  | .NonRefundableCredits => 8
  | .TaxAfterNonRefundableCredits => 9
  | .RefundableCredits => 10
  | .TotalTax => 11
  | .Withholding => 12
  | .EstimatedPayments => 13
  | .TotalPayments => 14
  | .Refund => 15
  | .AmountOwed => 16

/-- The `BTreeMap` of keys to amounts, modelled as an association list kept sorted by key
order; iterating a BTreeMap yields entries in ascending key order. -/
def Ledger := List (Key × Usd)

/-- The empty `BTreeMap`. -/
def Ledger.empty : Ledger := []

/-- Source `BTreeMap::insert`: place the entry at its sorted position, replacing an
existing entry with the same key. -/
def Ledger.insert : Ledger → Key → Usd → Ledger
  | [], k, v => [(k, v)]
  | (k', v') :: rest, k, v =>
    if k.idx < k'.idx then (k, v) :: (k', v') :: rest
    else if k = k' then (k, v) :: rest
    else (k', v') :: Ledger.insert rest k v

/-- Source `BTreeMap::get` and indexing: the value stored at a key, if any. -/
def Ledger.find : Ledger → Key → Option Usd
  | [], _ => none
  | (k', v) :: rest, k => if k = k' then some v else Ledger.find rest k

/-- Source `ReturnInput` (spine.rs lines 40-45). -/
structure ReturnInput where
  tax_year : TaxYear
  filing_status : FilingStatus
  w2_wages : Usd
  fed_withholding : Usd

/-- Source `SpineError` (spine.rs lines 52-55), parametric in the external
collaborator's `TaxError` type `ε`. -/
inductive SpineError (ε : Type) where
  | yearMismatch (input : TaxYear) (rules : TaxYear)
  | taxComputeError (e : ε)
deriving DecidableEq

/-- Source `compute_spine` (spine.rs lines 97-162). The external
`us_tax_brackets::compute_tax` collaborator is the abstract parameter
`compute_tax : TaxYear → FilingStatus → Int → Except ε Int` (whole-dollar
amounts in and out), with abstract error type `ε`.

The source's deduction step (spine.rs line 112) calls the superseded
status-only lookup of the rules interface (see the spec's two-lineage
design note); the status-only deduction in the canonical lineage is
`typical_standard_deduction`. Modelled from the spec: "Deductions =
rules.standard_deduction(params derived from input) — note: the minimal
input model today supplies default Filer/flags", which coincides with
the typical base used here. -/
def compute_spine {ε : Type} (compute_tax : TaxYear → FilingStatus → Int → Except ε Int)
    (rules : TaxYearRules) (input : ReturnInput) :
    Except (SpineError ε) Ledger :=
  if input.tax_year ≠ rules.year then
    .error (.yearMismatch input.tax_year rules.year)
  else
    let total_income := input.w2_wages
    let adjustments := Usd.ZERO
    let agi := total_income - adjustments
    let deductions := rules.typical_standard_deduction input.filing_status
    let taxable_income := (agi - deductions).max Usd.ZERO
    let taxable_whole_dollars : Int := Int.tdiv taxable_income.irs_round.cents 100
    match compute_tax input.tax_year input.filing_status taxable_whole_dollars with
    | .error e => .error (.taxComputeError e)
    | .ok regular_tax_whole_dollars =>
      let regular_tax := Usd.from_dollars regular_tax_whole_dollars
      let additional_tax := Usd.ZERO
      let total_tax_pre_credits := regular_tax + additional_tax
      let nonrefundable_credits := Usd.ZERO
      let tax_after_nonrefundable :=
        (total_tax_pre_credits - nonrefundable_credits).max Usd.ZERO
      let refundable_credits := Usd.ZERO
      let total_tax := tax_after_nonrefundable - refundable_credits
      let withholding := input.fed_withholding
      let estimated_payments := Usd.ZERO
      let total_payments := withholding + estimated_payments
      let net := total_payments - total_tax
      let refund := net.max Usd.ZERO
      let owed := (Usd.ZERO - net).max Usd.ZERO
      .ok ((((((((((((((((((Ledger.empty.insert
        .TotalIncome total_income).insert
        .Adjustments adjustments).insert
        .AGI agi).insert
        .Deductions deductions).insert
        .TaxableIncome taxable_income).insert
        .RegularTax regular_tax).insert
        .AdditionalTax additional_tax).insert
        .TotalTaxPreCredits total_tax_pre_credits).insert
        .NonRefundableCredits nonrefundable_credits).insert
        .TaxAfterNonRefundableCredits tax_after_nonrefundable).insert
        .RefundableCredits refundable_credits).insert
        .TotalTax total_tax).insert
        .Withholding withholding).insert
        .EstimatedPayments estimated_payments).insert
        .TotalPayments total_payments).insert
        .Refund refund).insert
        .AmountOwed owed))

/-- The `DeductionParams` the spine derives from a minimal `ReturnInput`
(spec §4.4 step 5): a default `Filer`, no spouse, all flags false, zero
earned income. -/
def default_deduction_params (status : FilingStatus) : DeductionParams where
  filing_status := status
  taxpayer := Filer.default
  spouse := none
  is_dependent := false
  is_dual_status_alien := false
  spouse_itemizes := false
  earned_income := Usd.ZERO

/-- The standard-deduction formula exactly as the claim states it: zero on
either override, otherwise the (possibly dependent-clamped) base term plus
per-box rate times checked-box count. Written from the claim's wording, to
be compared with the source-translated `TaxYearRules.standard_deduction`. -/
def standard_deduction_claim_formula (r : TaxYearRules)
    (p : DeductionParams) : Usd :=
  if p.is_dual_status_alien ∨
      (p.filing_status = .MarriedFilingSeparately ∧ p.spouse_itemizes) then
    Usd.ZERO
  else
    let base := r.typical_standard_deduction p.filing_status
    let per_box :=
      if p.filing_status = .Single ∨ p.filing_status = .HeadOfHousehold then
        r.additional_deduction_unmarried
      else r.additional_deduction_married
    let boxes :=
      if p.filing_status = .Single ∨ p.filing_status = .HeadOfHousehold then
        p.taxpayer.checked_boxes
      else p.taxpayer.checked_boxes + (p.spouse.map Filer.checked_boxes).getD 0
    let base_term :=
      if p.is_dependent then
        ((p.earned_income + r.dependent_earned_income_addition).max
            r.dependent_minimum_deduction).min base
      else base
    base_term + per_box * boxes

/-- The per-box additional amount of the algorithm (rules/mod.rs lines
69-81): the per-box rate for the status times the checked-box count. -/
def additional_amount (r : TaxYearRules) (p : DeductionParams) : Usd :=
  let per_box :=
    match p.filing_status with
    | .Single | .HeadOfHousehold => r.additional_deduction_unmarried
    | _ => r.additional_deduction_married
  let boxes :=
    match p.filing_status with
    | .Single | .HeadOfHousehold => p.taxpayer.checked_boxes
    | .MarriedFilingJointly | .MarriedFilingSeparately
    | .QualifyingSurvivingSpouse =>
        p.taxpayer.checked_boxes +
          (match p.spouse with
           | some s => s.checked_boxes
           | none => 0)
  per_box * boxes

/-- The taxable income the spine computes (spine.rs lines 106-113). -/
def spine_taxable_income (rules : TaxYearRules) (input : ReturnInput) : Usd :=
  ((input.w2_wages - Usd.ZERO) -
      rules.typical_standard_deduction input.filing_status).max Usd.ZERO

/-- The whole-dollar amount the spine hands to the bracket-lookup
collaborator (spine.rs line 116): taxable income, IRS-rounded, in dollars. -/
def spine_taxable_whole_dollars (rules : TaxYearRules)
    (input : ReturnInput) : Int :=
  Int.tdiv (spine_taxable_income rules input).irs_round.cents 100

/-- The ledger `compute_spine` produces on success, as an explicit list in
key order, given the whole-dollar regular tax `rt` the collaborator
returned. -/
def spine_ledger (rules : TaxYearRules) (input : ReturnInput)
    (rt : Int) : Ledger :=
  let total_income := input.w2_wages
  let adjustments := Usd.ZERO
  let agi := total_income - adjustments
  let deductions := rules.typical_standard_deduction input.filing_status
  let taxable_income := (agi - deductions).max Usd.ZERO
  let regular_tax := Usd.from_dollars rt
  let additional_tax := Usd.ZERO
  let total_tax_pre_credits := regular_tax + additional_tax
  let nonrefundable_credits := Usd.ZERO
  let tax_after_nonrefundable :=
    (total_tax_pre_credits - nonrefundable_credits).max Usd.ZERO
  let refundable_credits := Usd.ZERO
  let total_tax := tax_after_nonrefundable - refundable_credits
  let withholding := input.fed_withholding
  let estimated_payments := Usd.ZERO
  let total_payments := withholding + estimated_payments
  let net := total_payments - total_tax
  [(.TotalIncome, total_income), (.Adjustments, adjustments), (.AGI, agi),
   (.Deductions, deductions), (.TaxableIncome, taxable_income),
   (.RegularTax, regular_tax), (.AdditionalTax, additional_tax),
   (.TotalTaxPreCredits, total_tax_pre_credits),
   (.NonRefundableCredits, nonrefundable_credits),
   (.TaxAfterNonRefundableCredits, tax_after_nonrefundable),
   (.RefundableCredits, refundable_credits), (.TotalTax, total_tax),
   (.Withholding, withholding), (.EstimatedPayments, estimated_payments),
   (.TotalPayments, total_payments), (.Refund, net.max Usd.ZERO),
   (.AmountOwed, (Usd.ZERO - net).max Usd.ZERO)]

/-- A flat ten-percent bracket-lookup stub used for concrete evaluations. -/
def flat_tax : TaxYear → FilingStatus → Int → Except Unit Int :=
  fun _ _ d => .ok (d / 10)

/-- A bracket-lookup stub that always fails. -/
def failing_tax : TaxYear → FilingStatus → Int → Except Unit Int :=
  fun _ _ _ => .error ()

/-- A bracket-lookup stub that returns a negative whole-dollar tax. -/
def negative_tax : TaxYear → FilingStatus → Int → Except Unit Int :=
  fun _ _ _ => .ok (-5)

/-- Concrete return input: Single filer, 2025, 50000 in wages, 10000
withheld. -/
def example_input : ReturnInput :=
  ⟨.Y2025, .Single, Usd.from_dollars 50000, Usd.from_dollars 10000⟩

/-- Concrete return input whose tax year (2024) differs from the 2025
rules. -/
def mismatch_input : ReturnInput :=
  ⟨.Y2024, .Single, Usd.from_dollars 50000, Usd.ZERO⟩

/-- Concrete dependent parameters: Single dependent with 5000 of earned
income, no boxes, no overrides. -/
def dependent_params_example : DeductionParams :=
  ⟨.Single, Filer.default, none, true, false, false, Usd.from_dollars 5000⟩

section SpineLemmas

set_option maxHeartbeats 1600000 in
/-- Evaluating the spine's seventeen `BTreeMap` inserts: the keys arrive in
ascending declaration order, so the sorted association list is exactly the
entries in pipeline order. -/
theorem ledger_insert_chain (a b c d e f g h i j k l m n o p q : Usd) :
    ((((((((((((((((Ledger.empty.insert .TotalIncome a).insert .Adjustments
      b).insert .AGI c).insert .Deductions d).insert .TaxableIncome e).insert
      .RegularTax f).insert .AdditionalTax g).insert .TotalTaxPreCredits
      h).insert .NonRefundableCredits i).insert .TaxAfterNonRefundableCredits
      j).insert .RefundableCredits k).insert .TotalTax l).insert .Withholding
      m).insert .EstimatedPayments n).insert .TotalPayments o).insert .Refund
      p).insert .AmountOwed q =
      [(.TotalIncome, a), (.Adjustments, b), (.AGI, c), (.Deductions, d),
       (.TaxableIncome, e), (.RegularTax, f), (.AdditionalTax, g),
       (.TotalTaxPreCredits, h), (.NonRefundableCredits, i),
       (.TaxAfterNonRefundableCredits, j), (.RefundableCredits, k),
       (.TotalTax, l), (.Withholding, m), (.EstimatedPayments, n),
       (.TotalPayments, o), (.Refund, p), (.AmountOwed, q)] := by
  simp [Ledger.empty, Ledger.insert, Key.idx]

variable {ε : Type} (ct : TaxYear → FilingStatus → Int → Except ε Int)
variable (rules : TaxYearRules) (input : ReturnInput)

/-- On mismatched years the spine aborts with `YearMismatch`. -/
theorem compute_spine_mismatch (h : input.tax_year ≠ rules.year) :
    compute_spine ct rules input =
      .error (.yearMismatch input.tax_year rules.year) := by
  simp [compute_spine, h]

/-- On matched years, a failing bracket lookup is wrapped in
`TaxComputeError`. -/
theorem compute_spine_tax_error (h : input.tax_year = rules.year) (e : ε)
    (hct : ct input.tax_year input.filing_status
        (spine_taxable_whole_dollars rules input) = .error e) :
    compute_spine ct rules input = .error (.taxComputeError e) := by
  simp only [spine_taxable_whole_dollars, spine_taxable_income] at hct
  rw [h] at hct
  simp [compute_spine, h, hct]

/-- On matched years and a successful bracket lookup, the spine returns the
explicit ledger. -/
theorem compute_spine_ok (h : input.tax_year = rules.year) (rt : Int)
    (hct : ct input.tax_year input.filing_status
        (spine_taxable_whole_dollars rules input) = .ok rt) :
    compute_spine ct rules input = .ok (spine_ledger rules input rt) := by
  simp only [spine_taxable_whole_dollars, spine_taxable_income] at hct
  rw [h] at hct
  simp only [compute_spine, h, ne_eq, not_true_eq_false, if_false, hct]
  rw [ledger_insert_chain]
  simp [spine_ledger]

/-- Full characterization of the spine's success cases. -/
theorem compute_spine_ok_iff (ledger : Ledger) :
    compute_spine ct rules input = .ok ledger ↔
      input.tax_year = rules.year ∧
        ∃ rt, ct input.tax_year input.filing_status
            (spine_taxable_whole_dollars rules input) = .ok rt ∧
          ledger = spine_ledger rules input rt := by
  constructor
  · intro hok
    by_cases h : input.tax_year = rules.year
    · refine ⟨h, ?_⟩
      rcases hct : ct input.tax_year input.filing_status
          (spine_taxable_whole_dollars rules input) with e | rt
      · rw [compute_spine_tax_error ct rules input h e hct] at hok
        exact absurd hok (by simp)
      · refine ⟨rt, rfl, ?_⟩
        rw [compute_spine_ok ct rules input h rt hct] at hok
        exact (Except.ok.injEq _ _ ▸ hok).symm
    · rw [compute_spine_mismatch ct rules input h] at hok
      exact absurd hok (by simp)
  · rintro ⟨h, rt, hct, rfl⟩
    exact compute_spine_ok ct rules input h rt hct

end SpineLemmas

/-- Projection computation for `Usd`. -/
theorem Usd.cents_mk (c : Int) : (Usd.mk c).cents = c := rfl

/-- Rebuilding a `Usd` from its cents is the identity. -/
theorem Usd.mk_cents (u : Usd) : (⟨u.cents⟩ : Usd) = u := rfl

/-- Two `Usd` values with equal cent counts are equal. -/
theorem Usd.eq_of_cents {a b : Usd} (h : a.cents = b.cents) : a = b := by
  cases a
  cases b
  simpa using h

theorem Usd.add_def (a b : Usd) : a + b = ⟨a.cents + b.cents⟩ := rfl

theorem Usd.sub_def (a b : Usd) : a - b = ⟨a.cents - b.cents⟩ := rfl

theorem Usd.hmul_def (a : Usd) (n : Int) : a * n = ⟨a.cents * n⟩ := rfl

theorem Usd.max_def (a b : Usd) : a.max b = ⟨Max.max a.cents b.cents⟩ := rfl

theorem Usd.min_def (a b : Usd) : a.min b = ⟨Min.min a.cents b.cents⟩ := rfl

theorem Usd.zero_def : Usd.ZERO = ⟨0⟩ := rfl

theorem Usd.from_dollars_def (d : Int) : Usd.from_dollars d = ⟨d * 100⟩ := rfl

theorem Usd.le_def (a b : Usd) : a ≤ b ↔ a.cents ≤ b.cents := Iff.rfl

theorem Usd.lt_def (a b : Usd) : a < b ↔ a.cents < b.cents := Iff.rfl

/-- Closed form of `irs_round` in cents; shared helper. -/
theorem irs_round_cents (u : Usd) :
    u.irs_round.cents =
      u.cents.sign * ((100 * ((u.cents.natAbs + 50) / 100) : Nat) : Int) := by
  obtain ⟨x⟩ := u
  have key : (if x.natAbs % 100 ≥ 50
      then x.natAbs + (100 - x.natAbs % 100)
      else x.natAbs - x.natAbs % 100) = 100 * ((x.natAbs + 50) / 100) := by
    split <;> omega
  simp only [Usd.irs_round]
  rcases lt_trichotomy x 0 with h | rfl | h
  · rw [Int.sign_eq_neg_one_iff_neg.mpr h]
    simp only [if_pos h, key, Usd.cents_mk]
    omega
  · simp
  · rw [Int.sign_eq_one_iff_pos.mpr h]
    simp only [if_neg (by omega : ¬ x < 0), key, Usd.cents_mk]
    omega

/-- Helper: `irs_round` leaves a whole-dollar cent count unchanged. -/
theorem irs_round_of_whole (y : Int) (hmod : y % 100 = 0) :
    Usd.irs_round ⟨y⟩ = ⟨y⟩ := by
  simp only [Usd.irs_round, Usd.cents_mk]
  have habs : y.natAbs % 100 = 0 := by omega
  rw [if_neg (by omega : ¬ y.natAbs % 100 ≥ 50)]
  rcases le_or_lt 0 y with h | h
  · rw [if_neg (by omega : ¬ y < 0)]
    congr 1
    omega
  · rw [if_pos h]
    congr 1
    omega

/-- C6: for every `Usd` value, `irs_round` returns the whole-dollar amount
whose cent count is `sign(x) * 100 * ((|cents x| + 50) / 100)`: the absolute
value rounded to the nearest dollar, a remainder of exactly 50 cents
rounding away from zero, with the original sign reapplied. -/
theorem irs_round_closed_form (u : Usd) :
    u.irs_round.cents =
      u.cents.sign * ((100 * ((u.cents.natAbs + 50) / 100) : Nat) : Int) :=
  irs_round_cents u

/-- C1: for every rules value and every `DeductionParams`,
`standard_deduction` returns zero when `is_dual_status_alien` is set or
when the status is MFS with `spouse_itemizes` set; otherwise it returns
base + per-box rate times checked-box count, with the base replaced by
`min(max(earned_income + addition, dependent minimum), ordinary base)`
when `is_dependent` is set — exactly the claim's formula. -/
theorem standard_deduction_matches_claim (r : TaxYearRules)
    (p : DeductionParams) :
    r.standard_deduction p = standard_deduction_claim_formula r p := by
  rcases p with ⟨s, t, sp, dep, dsa, si, ei⟩
  cases s <;> cases sp <;> cases dep <;> cases dsa <;> cases si <;>
    simp [TaxYearRules.standard_deduction, standard_deduction_claim_formula,
      TaxYearRules.typical_standard_deduction]

/-- C9: `irs_round` is idempotent: applying it twice equals applying it
once. -/
theorem irs_round_idempotent (u : Usd) :
    u.irs_round.irs_round = u.irs_round := by
  have hmod : u.irs_round.cents % 100 = 0 := by
    rw [irs_round_cents u]
    rcases lt_trichotomy u.cents 0 with h | h | h
    · rw [Int.sign_eq_neg_one_iff_neg.mpr h]
      omega
    · rw [h, Int.sign_zero]
      omega
    · rw [Int.sign_eq_one_iff_pos.mpr h]
      omega
  exact irs_round_of_whole u.irs_round.cents hmod

/-- C7 counterexample: with `is_dependent` set together with the
dual-status-alien override, `standard_deduction` over the 2025 rules
returns zero, so the deduction minus the per-box additional amount falls
below the dependent minimum deduction. -/
theorem dependent_floor_violated_by_override :
    ¬ (Rules2025.dependent_minimum_deduction ≤
        Rules2025.standard_deduction
            { filing_status := .Single, taxpayer := Filer.default,
              spouse := none, is_dependent := true,
              is_dual_status_alien := true, spouse_itemizes := false,
              earned_income := Usd.ZERO } -
          additional_amount Rules2025
            { filing_status := .Single, taxpayer := Filer.default,
              spouse := none, is_dependent := true,
              is_dual_status_alien := true, spouse_itemizes := false,
              earned_income := Usd.ZERO }) := by
  decide

/-- C7 amended: for every `DeductionParams` with `is_dependent` set to which
neither zero-deduction override applies, over the 2025 rules, the deduction
minus the per-box additional amount lies between the dependent minimum
deduction and the ordinary base for the status. -/
theorem dependent_deduction_bounds (p : DeductionParams)
    (hdep : p.is_dependent = true)
    (hdsa : p.is_dual_status_alien = false)
    (hsi : ¬ (p.filing_status = .MarriedFilingSeparately ∧
      p.spouse_itemizes = true)) :
    Rules2025.dependent_minimum_deduction ≤
        Rules2025.standard_deduction p - additional_amount Rules2025 p ∧
      Rules2025.standard_deduction p - additional_amount Rules2025 p ≤
        Rules2025.typical_standard_deduction p.filing_status := by
  rcases p with ⟨s, t, sp, dep, dsa, si, ei⟩
  simp only at hdep hdsa hsi
  subst hdep
  subst hdsa
  cases s <;>
    simp_all [TaxYearRules.standard_deduction, additional_amount,
      TaxYearRules.typical_standard_deduction, Rules2025, Filer.checked_boxes,
      Usd.le_def, Usd.add_def, Usd.sub_def, Usd.hmul_def, Usd.max_def,
      Usd.min_def, Usd.zero_def, Usd.from_dollars_def, Usd.cents_mk]

/-- Helper: over the 2025 rules, `standard_deduction` is monotone in the
taxpayer's and the spouse's checked-box counts, all else fixed. -/
theorem sd2025_mono_in_boxes (s : FilingStatus) (t t' : Filer)
    (sp sp' : Option Filer) (dep dsa si : Bool) (ei : Usd)
    (ht : t.checked_boxes ≤ t'.checked_boxes)
    (hsp : (match sp with | some f => f.checked_boxes | none => 0) ≤
      (match sp' with | some f => f.checked_boxes | none => 0)) :
    Rules2025.standard_deduction ⟨s, t, sp, dep, dsa, si, ei⟩ ≤
      Rules2025.standard_deduction ⟨s, t', sp', dep, dsa, si, ei⟩ := by
  cases s <;>
    simp only [TaxYearRules.standard_deduction,
      TaxYearRules.typical_standard_deduction, Rules2025, Usd.le_def,
      Usd.add_def, Usd.hmul_def, Usd.max_def, Usd.min_def, Usd.zero_def,
      Usd.from_dollars_def, Usd.cents_mk] <;>
    split_ifs <;> simp_all <;> omega

/-- Helper: setting either flag never decreases a filer's checked-box
count. -/
theorem checked_boxes_le_of_set (t : Filer) :
    t.checked_boxes ≤ (Filer.mk true t.is_blind).checked_boxes ∧
      t.checked_boxes ≤ (Filer.mk t.is_65_or_older true).checked_boxes := by
  simp only [Filer.checked_boxes]
  constructor <;> split_ifs <;> omega

/-- C8: over the 2025 rules, `standard_deduction` never decreases when a
qualifying box is set: turning on `is_65_or_older` or `is_blind` for the
taxpayer, or for the spouse when one is present, with everything else held
fixed, yields a deduction at least as large. -/
theorem standard_deduction_box_monotone (p : DeductionParams) :
    Rules2025.standard_deduction p ≤
        Rules2025.standard_deduction
          { p with taxpayer := { p.taxpayer with is_65_or_older := true } } ∧
      Rules2025.standard_deduction p ≤
          Rules2025.standard_deduction
            { p with taxpayer := { p.taxpayer with is_blind := true } } ∧
      Rules2025.standard_deduction p ≤
          Rules2025.standard_deduction
            { p with
              spouse := (p.spouse.map fun s =>
                { s with is_65_or_older := true }) } ∧
      Rules2025.standard_deduction p ≤
          Rules2025.standard_deduction
            { p with
              spouse := (p.spouse.map fun s =>
                { s with is_blind := true }) } := by
  rcases p with ⟨s, t, sp, dep, dsa, si, ei⟩
  refine ⟨?_, ?_, ?_, ?_⟩
  · exact sd2025_mono_in_boxes s t _ sp sp dep dsa si ei
      (checked_boxes_le_of_set t).1 le_rfl
  · exact sd2025_mono_in_boxes s t _ sp sp dep dsa si ei
      (checked_boxes_le_of_set t).2 le_rfl
  · refine sd2025_mono_in_boxes s t t sp _ dep dsa si ei le_rfl ?_
    cases sp with
    | none => exact le_rfl
    | some f => exact (checked_boxes_le_of_set f).1
  · refine sd2025_mono_in_boxes s t t sp _ dep dsa si ei le_rfl ?_
    cases sp with
    | none => exact le_rfl
    | some f => exact (checked_boxes_le_of_set f).2

/-- C2: when the input's tax year matches the rules', the `Deductions` entry
of any ledger `compute_spine` returns equals `standard_deduction` applied to
the `DeductionParams` derived from the input (default `Filer`, no spouse,
all flags false, zero earned income), which in turn equals the typical
standard deduction for the input's filing status. -/
theorem spine_deductions_default_params {ε : Type}
    (ct : TaxYear → FilingStatus → Int → Except ε Int)
    (rules : TaxYearRules) (input : ReturnInput) (ledger : Ledger)
    (_hy : input.tax_year = rules.year)
    (hok : compute_spine ct rules input = .ok ledger) :
    Ledger.find ledger .Deductions =
        some (rules.standard_deduction
          (default_deduction_params input.filing_status)) ∧
      rules.standard_deduction (default_deduction_params input.filing_status) =
        rules.typical_standard_deduction input.filing_status := by
  have heq : rules.standard_deduction
      (default_deduction_params input.filing_status) =
      rules.typical_standard_deduction input.filing_status := by
    cases hs : input.filing_status <;>
      simp [TaxYearRules.standard_deduction, default_deduction_params,
        Filer.default, Filer.checked_boxes,
        TaxYearRules.typical_standard_deduction, Usd.add_def, Usd.hmul_def,
        Usd.zero_def, Usd.cents_mk, Usd.mk_cents]
  refine ⟨?_, heq⟩
  rw [heq]
  obtain ⟨-, rt, -, rfl⟩ := (compute_spine_ok_iff ct rules input ledger).mp hok
  simp [spine_ledger, Ledger.find]

/-- C3: `compute_spine` returns the `YearMismatch` error, carrying the
input's and the rules' tax years, exactly when the years differ; when they
match, it returns `TaxComputeError` wrapping the collaborator's error
exactly when the bracket lookup fails; errors never come with a ledger. -/
theorem spine_error_characterization {ε : Type}
    (ct : TaxYear → FilingStatus → Int → Except ε Int)
    (rules : TaxYearRules) (input : ReturnInput) :
    (compute_spine ct rules input =
          .error (.yearMismatch input.tax_year rules.year) ↔
        input.tax_year ≠ rules.year) ∧
      (∀ a b, compute_spine ct rules input = .error (.yearMismatch a b) →
        a = input.tax_year ∧ b = rules.year ∧ input.tax_year ≠ rules.year) ∧
      (input.tax_year = rules.year → ∀ e : ε,
        (compute_spine ct rules input = .error (.taxComputeError e) ↔
          ct input.tax_year input.filing_status
            (spine_taxable_whole_dollars rules input) = .error e)) := by
  by_cases h : input.tax_year = rules.year
  · have hnm : ∀ err, compute_spine ct rules input = .error err →
        ∃ e, err = SpineError.taxComputeError e ∧
          ct input.tax_year input.filing_status
            (spine_taxable_whole_dollars rules input) = .error e := by
      intro err herr
      rcases hct : ct input.tax_year input.filing_status
          (spine_taxable_whole_dollars rules input) with e | rt
      · have hcs := compute_spine_tax_error ct rules input h e hct
        rw [herr] at hcs
        exact ⟨e, Except.error.inj hcs, rfl⟩
      · rw [compute_spine_ok ct rules input h rt hct] at herr
        exact absurd herr (by simp)
    refine ⟨⟨fun hc => ?_, fun hc => absurd h hc⟩, fun a b hc => ?_,
      fun _ e => ⟨fun hc => ?_, fun hct => ?_⟩⟩
    · obtain ⟨e, he, -⟩ := hnm _ hc
      simp at he
    · obtain ⟨e, he, -⟩ := hnm _ hc
      simp at he
    · obtain ⟨e', he, hct⟩ := hnm _ hc
      injection he with h2
      subst h2
      exact hct
    · exact compute_spine_tax_error ct rules input h e hct
  · have hm := compute_spine_mismatch ct rules input h
    refine ⟨⟨fun _ => h, fun _ => hm⟩, fun a b hc => ?_, fun hy => absurd hy h⟩
    rw [hm] at hc
    have h1 := Except.error.inj hc
    injection h1 with ha hb
    exact ⟨ha.symm, hb.symm, h⟩

/-- C4: in every ledger `compute_spine` returns, at most one of `Refund` and
`AmountOwed` is nonzero; when total tax exceeds total payments the amount
owed is the difference and the refund is zero, and otherwise the refund is
the difference and the amount owed is zero. -/
theorem refund_owed_exclusive {ε : Type}
    (ct : TaxYear → FilingStatus → Int → Except ε Int)
    (rules : TaxYearRules) (input : ReturnInput) (ledger : Ledger)
    (hok : compute_spine ct rules input = .ok ledger)
    (tt tp rf ow : Usd)
    (htt : Ledger.find ledger .TotalTax = some tt)
    (htp : Ledger.find ledger .TotalPayments = some tp)
    (hrf : Ledger.find ledger .Refund = some rf)
    (how : Ledger.find ledger .AmountOwed = some ow) :
    (rf = Usd.ZERO ∨ ow = Usd.ZERO) ∧
      (tp < tt → ow = tt - tp ∧ rf = Usd.ZERO) ∧
      (tt ≤ tp → rf = tp - tt ∧ ow = Usd.ZERO) := by
  obtain ⟨-, rt, -, rfl⟩ := (compute_spine_ok_iff ct rules input ledger).mp hok
  simp only [spine_ledger, Ledger.find] at htt htp hrf how
  simp at htt htp hrf how
  subst htt
  subst htp
  subst hrf
  subst how
  refine ⟨?_, fun hlt => ⟨?_, ?_⟩, fun hle => ⟨?_, ?_⟩⟩
  · rcases le_or_lt
        ((input.fed_withholding + Usd.ZERO).cents -
          ((Usd.from_dollars rt + Usd.ZERO - Usd.ZERO).max Usd.ZERO -
            Usd.ZERO).cents) 0 with hc | hc
    · left
      apply Usd.eq_of_cents
      simp only [Usd.sub_def, Usd.add_def, Usd.max_def, Usd.zero_def,
        Usd.from_dollars_def, Usd.cents_mk] at hc ⊢
      omega
    · right
      apply Usd.eq_of_cents
      simp only [Usd.sub_def, Usd.add_def, Usd.max_def, Usd.zero_def,
        Usd.from_dollars_def, Usd.cents_mk] at hc ⊢
      omega
  all_goals
    apply Usd.eq_of_cents
    simp only [Usd.lt_def, Usd.le_def, Usd.sub_def, Usd.add_def, Usd.max_def,
      Usd.zero_def, Usd.from_dollars_def, Usd.cents_mk] at *
    omega

/-- C5: every ledger `compute_spine` returns holds exactly the seventeen
stage keys, in pipeline-sequence order from `TotalIncome` through
`AmountOwed`. -/
theorem ledger_keys_pipeline_order {ε : Type}
    (ct : TaxYear → FilingStatus → Int → Except ε Int)
    (rules : TaxYearRules) (input : ReturnInput) (ledger : Ledger)
    (hok : compute_spine ct rules input = .ok ledger) :
    List.map Prod.fst ledger =
      [Key.TotalIncome, Key.Adjustments, Key.AGI, Key.Deductions,
       Key.TaxableIncome, Key.RegularTax, Key.AdditionalTax,
       Key.TotalTaxPreCredits, Key.NonRefundableCredits,
       Key.TaxAfterNonRefundableCredits, Key.RefundableCredits, Key.TotalTax,
       Key.Withholding, Key.EstimatedPayments, Key.TotalPayments, Key.Refund,
       Key.AmountOwed] := by
  obtain ⟨-, rt, -, rfl⟩ := (compute_spine_ok_iff ct rules input ledger).mp hok
  simp [spine_ledger]

/-- C10: in every ledger `compute_spine` returns, the `TaxableIncome`,
`TaxAfterNonRefundableCredits`, `TotalTax`, `Refund` and `AmountOwed`
entries are all nonnegative, whatever whole-dollar value (even negative)
the bracket-lookup collaborator returned. -/
theorem ledger_nonnegative_entries {ε : Type}
    (ct : TaxYear → FilingStatus → Int → Except ε Int)
    (rules : TaxYearRules) (input : ReturnInput) (ledger : Ledger)
    (hok : compute_spine ct rules input = .ok ledger) :
    (∀ v, Ledger.find ledger .TaxableIncome = some v → Usd.ZERO ≤ v) ∧
      (∀ v, Ledger.find ledger .TaxAfterNonRefundableCredits = some v →
        Usd.ZERO ≤ v) ∧
      (∀ v, Ledger.find ledger .TotalTax = some v → Usd.ZERO ≤ v) ∧
      (∀ v, Ledger.find ledger .Refund = some v → Usd.ZERO ≤ v) ∧
      (∀ v, Ledger.find ledger .AmountOwed = some v → Usd.ZERO ≤ v) := by
  obtain ⟨-, rt, -, rfl⟩ := (compute_spine_ok_iff ct rules input ledger).mp hok
  refine ⟨?_, ?_, ?_, ?_, ?_⟩ <;>
    (intro v hv
     simp only [spine_ledger, Ledger.find] at hv
     simp at hv
     subst hv
     simp only [Usd.le_def, Usd.sub_def, Usd.add_def, Usd.max_def,
       Usd.zero_def, Usd.from_dollars_def, Usd.cents_mk]
     omega)

/-- Witness for C2 at a concrete Single-filer 2025 input. -/
theorem spine_deductions_default_params_witness :
    Ledger.find (spine_ledger Rules2025 example_input 3425) .Deductions =
        some (Rules2025.standard_deduction
          (default_deduction_params .Single)) ∧
      Rules2025.standard_deduction (default_deduction_params .Single) =
        Rules2025.typical_standard_deduction .Single :=
  spine_deductions_default_params flat_tax Rules2025 example_input
    (spine_ledger Rules2025 example_input 3425) rfl
    (compute_spine_ok flat_tax Rules2025 example_input rfl 3425 rfl)

/-- Witness for C3: a 2024 input against the 2025 rules yields the
year-mismatch error, and a failing collaborator yields the wrapped
tax-compute error. -/
theorem spine_error_characterization_witness :
    compute_spine flat_tax Rules2025 mismatch_input =
        .error (.yearMismatch mismatch_input.tax_year Rules2025.year) ∧
      compute_spine failing_tax Rules2025 example_input =
        .error (.taxComputeError ()) :=
  ⟨(spine_error_characterization flat_tax Rules2025 mismatch_input).1.mpr
      (by decide),
    ((spine_error_characterization failing_tax Rules2025
        example_input).2.2 rfl ()).mpr rfl⟩

/-- Witness for C4 at a concrete input where payments exceed tax. -/
theorem refund_owed_exclusive_witness :
    (Usd.from_dollars 6575 = Usd.ZERO ∨ Usd.ZERO = Usd.ZERO) ∧
      (Usd.from_dollars 10000 < Usd.from_dollars 3425 →
        Usd.ZERO = Usd.from_dollars 3425 - Usd.from_dollars 10000 ∧
          Usd.from_dollars 6575 = Usd.ZERO) ∧
      (Usd.from_dollars 3425 ≤ Usd.from_dollars 10000 →
        Usd.from_dollars 6575 =
            Usd.from_dollars 10000 - Usd.from_dollars 3425 ∧
          Usd.ZERO = Usd.ZERO) :=
  refund_owed_exclusive flat_tax Rules2025 example_input
    (spine_ledger Rules2025 example_input 3425)
    (compute_spine_ok flat_tax Rules2025 example_input rfl 3425 rfl)
    (Usd.from_dollars 3425) (Usd.from_dollars 10000)
    (Usd.from_dollars 6575) Usd.ZERO rfl rfl rfl rfl

/-- Witness for C5 at a concrete input. -/
theorem ledger_keys_pipeline_order_witness :
    List.map Prod.fst (spine_ledger Rules2025 example_input 3425) =
      [Key.TotalIncome, Key.Adjustments, Key.AGI, Key.Deductions,
       Key.TaxableIncome, Key.RegularTax, Key.AdditionalTax,
       Key.TotalTaxPreCredits, Key.NonRefundableCredits,
       Key.TaxAfterNonRefundableCredits, Key.RefundableCredits, Key.TotalTax,
       Key.Withholding, Key.EstimatedPayments, Key.TotalPayments, Key.Refund,
       Key.AmountOwed] :=
  ledger_keys_pipeline_order flat_tax Rules2025 example_input
    (spine_ledger Rules2025 example_input 3425)
    (compute_spine_ok flat_tax Rules2025 example_input rfl 3425 rfl)

/-- Witness for the amended C7 at a concrete dependent input. -/
theorem dependent_deduction_bounds_witness :
    Rules2025.dependent_minimum_deduction ≤
        Rules2025.standard_deduction dependent_params_example -
          additional_amount Rules2025 dependent_params_example ∧
      Rules2025.standard_deduction dependent_params_example -
          additional_amount Rules2025 dependent_params_example ≤
        Rules2025.typical_standard_deduction .Single :=
  dependent_deduction_bounds dependent_params_example rfl rfl (by decide)

/-- Witness for C10 with a collaborator that returns a negative tax: the
clamped entries stay nonnegative. -/
theorem ledger_nonnegative_entries_witness :
    Usd.ZERO ≤ Usd.from_dollars 34250 ∧ Usd.ZERO ≤ Usd.ZERO ∧
      Usd.ZERO ≤ Usd.from_dollars 10000 :=
  have h := ledger_nonnegative_entries negative_tax Rules2025 example_input
    (spine_ledger Rules2025 example_input (-5))
    (compute_spine_ok negative_tax Rules2025 example_input rfl (-5) rfl)
  ⟨h.1 (Usd.from_dollars 34250) rfl, h.2.2.1 Usd.ZERO rfl,
    h.2.2.2.1 (Usd.from_dollars 10000) rfl⟩

end HonestTax
